import Mathlib

/-!
Verification of the health-monitoring subsystem of VercelAutoDeployWebMaster.

The embedding follows `src/services/healthcheck.service.ts` and
`src/services/vercel.service.ts`:

* JavaScript thrown values are modelled by `Thrown`, keeping exactly the
  observations the two catch blocks make (`instanceof Error`,
  `typeof error === 'object'`, `'message' in error`, `'response' in error`,
  `error.response?.status`, `error.code`, string coercions).
* Each network attempt is an oracle `Nat → AttemptOutcome` giving, for every
  retry count, either an HTTP response (any status — `validateStatus` accepts
  all) or a thrown value.
* `checkDeploymentHealth` mirrors the recursive retry of the source, and also
  returns a trace (number of attempts made, delays slept) so that the retry
  schedule can be stated.
-/

namespace AutoDeploy

/-- Information carried by the `response` property of a thrown value, when
that property is present (`'response' in error`).  `status` is
`error.response?.status`: `none` when `response` is `undefined` or has no
numeric status. -/
structure RespInfo where
  status : Option Int
  statusText : Option String
  dataErrorMessage : Option String
  deriving DecidableEq, Repr

/-- A JavaScript thrown value, as observed by the catch blocks of
`checkDeploymentHealth` and `makeVercelApiCall`.
`errObj` is an `Error` instance (always truthy, an object, with a `message`
string); `plainObj` is any other non-null object, whose `message` property may
be absent; `str` is a thrown string; `nullOrUndef` is `null`/`undefined`. -/
inductive Thrown where
  | nullOrUndef : Thrown
  | str (s : String) : Thrown
  | errObj (message : String) (resp : Option RespInfo) (code : Option String) : Thrown
  | plainObj (message : Option String) (resp : Option RespInfo) (code : Option String) : Thrown
  deriving DecidableEq, Repr

/-- `error && typeof error === 'object' && 'message' in error`. -/
def Thrown.isObjWithMessage : Thrown → Bool
  | .errObj _ _ _ => true
  | .plainObj m _ _ => m.isSome
  | _ => false

/-- The error-message chain of `checkDeploymentHealth`:
`error instanceof Error ? error.message : typeof error === 'string' ? error :
error && typeof error === 'object' && 'message' in error ?
String(error.message) : 'Unknown error'`. -/
def Thrown.jsMessage : Thrown → String
  | .errObj m _ _ => m
  | .str s => s
  | .plainObj (some m) _ _ => m
  | .plainObj none _ _ => "Unknown error"
  | .nullOrUndef => "Unknown error"

/-- `error && typeof error === 'object' && 'response' in error`. -/
def Thrown.hasResponse : Thrown → Bool
  | .errObj _ r _ => r.isSome
  | .plainObj _ r _ => r.isSome
  | _ => false

/-- `error.response?.status` (meaningful only when a `response` property is
present). -/
def Thrown.responseStatus : Thrown → Option Int
  | .errObj _ (some r) _ => r.status
  | .plainObj _ (some r) _ => r.status
  | _ => none

/-- `error.code`. -/
def Thrown.errCode : Thrown → Option String
  | .errObj _ _ c => c
  | .plainObj _ _ c => c
  | _ => none

/-- The `DeploymentHealth` configuration from `src/types/config`
(the fields `checkDeploymentHealth` and `setupHealthMonitoring` read). -/
structure DeploymentHealth where
  expectedStatus : Int
  timeoutMs : Option Nat
  checkIntervalMs : Option Nat
  deriving DecidableEq, Repr

/-- The `HealthCheckResult` interface of `healthcheck.service.ts`.  Note the
field is `responseTime`, an optional STRING of the shape `"<n>ms"`. -/
structure HealthCheckResult where
  timestamp : String
  url : String
  status : Int
  healthy : Bool
  responseTime : Option String := none
  error : Option String := none
  deriving DecidableEq, Repr

/-- Outcome of one `axios` GET: the server answered with some status (never
thrown, because `validateStatus: status => true`), or the request threw. -/
inductive AttemptOutcome where
  | response (status : Int) (elapsedMs : Nat) : AttemptOutcome
  | throwErr (e : Thrown) : AttemptOutcome
  deriving DecidableEq, Repr

/-- JavaScript truthiness of an optional string (`undefined` and `""` are
falsy). -/
def jsTruthy : Option String → Bool
  | some s => !(s == "")
  | none => false

namespace HealthCheck

def MAX_RETRIES : Nat := 3
def RETRY_DELAY_MS : Nat := 1000

/-- A call's observable behaviour: the result it resolves to, how many total
attempts it performed (its own plus recursive ones), and the delays slept
between consecutive attempts, in order. -/
structure ProbeTrace where
  result : HealthCheckResult
  attemptsMade : Nat
  delays : List Nat
  deriving DecidableEq, Repr

/-- Shallow embedding of `checkDeploymentHealth(url, config, retryCount)`.
`oracle r` is the outcome of the attempt issued by the call whose
`retryCount` is `r`; `ts r` is the timestamp taken at the top of that call. -/
def checkDeploymentHealth (url : String) (config : DeploymentHealth)
    (oracle : Nat → AttemptOutcome) (ts : Nat → String)
    (retryCount : Nat) : ProbeTrace :=
  match oracle retryCount with
  | .response status elapsedMs =>
      { result :=
          { timestamp := ts retryCount
            url := url
            status := status
            healthy := status == config.expectedStatus
            responseTime := some (toString elapsedMs ++ "ms") }
        attemptsMade := 1
        delays := [] }
  | .throwErr e =>
      if h : e.isObjWithMessage = true ∧ retryCount < MAX_RETRIES then
        let rest := checkDeploymentHealth url config oracle ts (retryCount + 1)
        { rest with
            attemptsMade := rest.attemptsMade + 1
            delays := RETRY_DELAY_MS :: rest.delays }
      else
        { result :=
            { timestamp := ts retryCount
              url := url
              status := 503
              healthy := false
              error := some e.jsMessage }
          attemptsMade := 1
          delays := [] }
  termination_by MAX_RETRIES - retryCount
  decreasing_by simp only [MAX_RETRIES] at *; omega

/-- The same computation written in the exception monad, with the `axios` call
as the only throw site and the catch block as handler: this records that
every thrown value is absorbed and the promise always resolves. -/
def checkDeploymentHealthE (url : String) (config : DeploymentHealth)
    (oracle : Nat → AttemptOutcome) (ts : Nat → String)
    (retryCount : Nat) : Except Thrown ProbeTrace :=
  let attempt : Except Thrown (Int × Nat) :=
    match oracle retryCount with
    | .response s t => .ok (s, t)
    | .throwErr e => .error e
  match attempt with
  | .ok (status, elapsedMs) =>
      .ok { result :=
              { timestamp := ts retryCount
                url := url
                status := status
                healthy := status == config.expectedStatus
                responseTime := some (toString elapsedMs ++ "ms") }
            attemptsMade := 1
            delays := [] }
  | .error e =>
      if _h : e.isObjWithMessage = true ∧ retryCount < MAX_RETRIES then
        match checkDeploymentHealthE url config oracle ts (retryCount + 1) with
        | .ok rest =>
            .ok { rest with
                    attemptsMade := rest.attemptsMade + 1
                    delays := RETRY_DELAY_MS :: rest.delays }
        | .error e2 => .error e2
      else
        .ok { result :=
                { timestamp := ts retryCount
                  url := url
                  status := 503
                  healthy := false
                  error := some e.jsMessage }
              attemptsMade := 1
              delays := [] }
  termination_by MAX_RETRIES - retryCount
  decreasing_by simp only [MAX_RETRIES] at *; omega

/-- The monadic form always resolves, to exactly the total function's trace. -/
theorem checkDeploymentHealthE_eq_ok (url : String) (config : DeploymentHealth)
    (oracle : Nat → AttemptOutcome) (ts : Nat → String) (retryCount : Nat) :
    checkDeploymentHealthE url config oracle ts retryCount =
      .ok (checkDeploymentHealth url config oracle ts retryCount) := by
  have H : ∀ k r, MAX_RETRIES - r ≤ k →
      checkDeploymentHealthE url config oracle ts r =
        .ok (checkDeploymentHealth url config oracle ts r) := by
    intro k
    induction k with
    | zero =>
      intro r hr
      rw [checkDeploymentHealthE, checkDeploymentHealth]
      cases h : oracle r with
      | response s t => simp
      | throwErr e =>
        simp only
        have hge : ¬ r < MAX_RETRIES := by omega
        rw [dif_neg (by tauto), dif_neg (by tauto)]
    | succ k ih =>
      intro r hr
      rw [checkDeploymentHealthE, checkDeploymentHealth]
      cases h : oracle r with
      | response s t => simp
      | throwErr e =>
        simp only
        by_cases hc : e.isObjWithMessage = true ∧ r < MAX_RETRIES
        · rw [dif_pos hc, dif_pos hc, ih (r + 1) (by omega)]
        · rw [dif_neg hc, dif_neg hc]
  exact H MAX_RETRIES retryCount (by omega)

/-- The two closure variables of `setupHealthMonitoring`
(`let healthyStreak = 0; let unhealthyStreak = 0`).  The source mutates
JavaScript numbers, so the counters are modelled as integers. -/
structure MonitorState where
  healthyStreak : Int
  unhealthyStreak : Int
  deriving DecidableEq, Repr

/-- The initial monitor state: both streak counters start at 0. -/
def initialMonitorState : MonitorState := { healthyStreak := 0, unhealthyStreak := 0 }

/-- The streak update at the top of `logHealthCheck`. -/
def updateStreaks (st : MonitorState) (healthy : Bool) : MonitorState :=
  if healthy then
    { healthyStreak := st.healthyStreak + 1, unhealthyStreak := 0 }
  else
    { healthyStreak := 0, unhealthyStreak := st.unhealthyStreak + 1 }

/-- Folding `logHealthCheck`'s streak update over a sequence of probe
healthiness flags, from the start of the session. -/
def processResults (results : List Bool) : MonitorState :=
  results.foldl updateStreaks initialMonitorState

/-- One console line emitted by `logHealthCheck`. -/
inductive ConsoleLine where
  | passed (url : String) (status : Int) : ConsoleLine
  | stable (streak : Int) : ConsoleLine
  | failed (url : String) (status : Int) (error : Option String) : ConsoleLine
  | alert (streak : Int) : ConsoleLine
  deriving DecidableEq, Repr

/-- A "passed" notice on the console (success-path output). -/
def ConsoleLine.isPassedNotice : ConsoleLine → Bool
  | .passed _ _ => true
  | .stable _ => true
  | _ => false

/-- The per-probe failure notice (`console.error` of the failed check). -/
def ConsoleLine.isFailedNotice : ConsoleLine → Bool
  | .failed _ _ _ => true
  | _ => false

/-- The elevated `ALERT` line for a failure streak. -/
def ConsoleLine.isAlertNotice : ConsoleLine → Bool
  | .alert _ => true
  | _ => false

/-- The log-file line `logHealthCheck` appends:
`[timestamp] [INFO|ERROR] url - Status: N ✅|❌ responseTime [- Error: msg]`. -/
def logFileLine (health : HealthCheckResult) : String :=
  let logLevel := if health.healthy then "INFO" else "ERROR"
  "[" ++ health.timestamp ++ "] [" ++ logLevel ++ "] " ++ health.url ++
    " - Status: " ++ toString health.status ++ " " ++
    (if health.healthy then "✅" else "❌") ++ " " ++
    (health.responseTime.getD "") ++ " " ++
    (if jsTruthy health.error then "- Error: " ++ health.error.getD "" else "")

/-- Shallow embedding of `logHealthCheck`: updates the streak counters and
returns the new state together with the console lines printed, in order.
(The file append is `logFileLine health`, performed unconditionally.) -/
def logHealthCheck (st : MonitorState) (health : HealthCheckResult) :
    MonitorState × List ConsoleLine :=
  let st' := updateStreaks st health.healthy
  let lines :=
    if health.healthy then
      if st'.healthyStreak == 1 then
        [ConsoleLine.passed health.url health.status]
      else if st'.healthyStreak % 5 == 0 then
        [ConsoleLine.stable st'.healthyStreak]
      else []
    else
      [ConsoleLine.failed health.url health.status health.error] ++
        (if st'.unhealthyStreak ≥ 3 then [ConsoleLine.alert st'.unhealthyStreak] else [])
  (st', lines)

/-- The scheduler-level state of one monitoring session: whether `cancelFn`
(`clearInterval`) has run, how many probes are started but not yet completed
(the initial `checkDeploymentHealth(url, config).then(logHealthCheck)` plus
interval callbacks `await`ing their probe), the streak counters, and the
lines appended to the session's log file. -/
structure SessionState where
  cancelled : Bool
  inFlight : Nat
  monState : MonitorState
  fileLog : List String
  deriving DecidableEq, Repr

/-- State right after `setupHealthMonitoring` returns: the immediate initial
probe has been started (its `.then(logHealthCheck)` is pending), the timer is
armed, nothing is logged yet. -/
def initialSession : SessionState :=
  { cancelled := false, inFlight := 1, monState := initialMonitorState, fileLog := [] }

/-- An event of the session's event loop. -/
inductive MonitorEvent where
  | timerTick : MonitorEvent
  | probeComplete (health : HealthCheckResult) : MonitorEvent
  | cancel : MonitorEvent
  deriving Repr

/-- One event-loop step of `setupHealthMonitoring`:
* `timerTick` — the interval fires; `clearInterval` guarantees this cannot
  happen after cancellation; the callback starts a probe and awaits it.
* `probeComplete` — a started probe resolves; its continuation runs
  `logHealthCheck(health)`, which updates the streaks and appends the file
  line.  The source guards this with nothing: it runs even if the session was
  cancelled while the probe was in flight.
* `cancel` — the returned closure runs `clearInterval(interval)`. -/
def stepMonitor (s : SessionState) : MonitorEvent → SessionState
  | .timerTick =>
      if s.cancelled then s else { s with inFlight := s.inFlight + 1 }
  | .probeComplete health =>
      if s.inFlight = 0 then s
      else
        { s with
            inFlight := s.inFlight - 1
            monState := (logHealthCheck s.monState health).1
            fileLog := s.fileLog ++ [logFileLine health] }
  | .cancel => { s with cancelled := true }

/-- Running a session over a list of events. -/
def runMonitor (s : SessionState) (events : List MonitorEvent) : SessionState :=
  events.foldl stepMonitor s

end HealthCheck

namespace Vercel

def MAX_RETRIES : Nat := 3
def RETRY_DELAY_MS : Nat := 2000

/-- Outcome of one `axios` call in `makeVercelApiCall`: the response data
(abstract) or a thrown value.  Here any non-2xx status throws (no
`validateStatus` override), which is folded into `throwErr`. -/
inductive ApiOutcome where
  | success (data : String) : ApiOutcome
  | throwErr (e : Thrown) : ApiOutcome
  deriving Repr

/-- The retry predicate of `makeVercelApiCall`'s catch block:
`error && typeof error === 'object' && 'response' in error &&
retryCount < MAX_RETRIES &&
(error.response?.status >= 500 || error.code === 'ECONNRESET')`.
`undefined >= 500` is `false`, so an absent status never satisfies the
first disjunct. -/
def shouldRetryApi (e : Thrown) (retryCount : Nat) : Bool :=
  e.hasResponse && decide (retryCount < MAX_RETRIES) &&
    ((match e.responseStatus with
      | some s => decide (s ≥ 500)
      | none => false) || e.errCode == some "ECONNRESET")

/-- The error-message construction at the bottom of the catch block. -/
def vercelErrorMessage (e : Thrown) : String :=
  let base := e.jsMessage
  match e with
  | .errObj _ (some r) _ | .plainObj _ (some r) _ =>
      let apiError :=
        if jsTruthy r.dataErrorMessage then r.dataErrorMessage
        else if jsTruthy r.statusText then r.statusText
        else none
      match apiError with
      | some a =>
          "Vercel API error (" ++
            (match r.status with
             | some s => if s == 0 then "network error" else toString s
             | none => "network error") ++ "): " ++ a
      | none => base
  | _ => base

/-- A call's observable behaviour: `Except.error msg` models
`throw new Error(msg)`; the trace records total attempts and delays. -/
structure ApiTrace where
  result : Except String String
  attemptsMade : Nat
  delays : List Nat
  deriving Repr

/-- Shallow embedding of `makeVercelApiCall(url, method, data, retryCount)`.
`token` is `process.env.VERCEL_TOKEN` (`none` when unset; an empty string is
falsy too).  `oracle r` is the outcome of the attempt at retry count `r`. -/
def makeVercelApiCall (token : Option String) (oracle : Nat → ApiOutcome)
    (retryCount : Nat) : ApiTrace :=
  if jsTruthy token = false then
    { result := .error
        "VERCEL_TOKEN environment variable is not set. Please set it before deploying."
      attemptsMade := 0
      delays := [] }
  else
    match oracle retryCount with
    | .success data => { result := .ok data, attemptsMade := 1, delays := [] }
    | .throwErr e =>
        if h : shouldRetryApi e retryCount = true then
          let rest := makeVercelApiCall token oracle (retryCount + 1)
          { rest with
              attemptsMade := rest.attemptsMade + 1
              delays := RETRY_DELAY_MS :: rest.delays }
        else
          { result := .error (vercelErrorMessage e)
            attemptsMade := 1
            delays := [] }
  termination_by MAX_RETRIES - retryCount
  decreasing_by
    simp only [shouldRetryApi, MAX_RETRIES, Bool.and_assoc, Bool.and_eq_true,
      decide_eq_true_eq] at h ⊢
    omega

end Vercel

/-! ### Step lemmas for `checkDeploymentHealth` -/

theorem checkDeploymentHealth_response (url : String) (config : DeploymentHealth)
    (oracle : Nat → AttemptOutcome) (ts : Nat → String) (r : Nat)
    (status : Int) (elapsedMs : Nat) (h : oracle r = .response status elapsedMs) :
    HealthCheck.checkDeploymentHealth url config oracle ts r =
      { result :=
          { timestamp := ts r
            url := url
            status := status
            healthy := status == config.expectedStatus
            responseTime := some (toString elapsedMs ++ "ms") }
        attemptsMade := 1
        delays := [] } := by
  rw [HealthCheck.checkDeploymentHealth, h]

theorem checkDeploymentHealth_throw_retry (url : String) (config : DeploymentHealth)
    (oracle : Nat → AttemptOutcome) (ts : Nat → String) (r : Nat) (e : Thrown)
    (h : oracle r = .throwErr e) (hm : e.isObjWithMessage = true)
    (hr : r < HealthCheck.MAX_RETRIES) :
    HealthCheck.checkDeploymentHealth url config oracle ts r =
      { result := (HealthCheck.checkDeploymentHealth url config oracle ts (r + 1)).result
        attemptsMade :=
          (HealthCheck.checkDeploymentHealth url config oracle ts (r + 1)).attemptsMade + 1
        delays := HealthCheck.RETRY_DELAY_MS ::
          (HealthCheck.checkDeploymentHealth url config oracle ts (r + 1)).delays } := by
  rw [HealthCheck.checkDeploymentHealth, h]
  simp only [dif_pos (And.intro hm hr)]

theorem checkDeploymentHealth_throw_stop (url : String) (config : DeploymentHealth)
    (oracle : Nat → AttemptOutcome) (ts : Nat → String) (r : Nat) (e : Thrown)
    (h : oracle r = .throwErr e)
    (hstop : ¬ (e.isObjWithMessage = true ∧ r < HealthCheck.MAX_RETRIES)) :
    HealthCheck.checkDeploymentHealth url config oracle ts r =
      { result :=
          { timestamp := ts r
            url := url
            status := 503
            healthy := false
            responseTime := none
            error := some e.jsMessage }
        attemptsMade := 1
        delays := [] } := by
  rw [HealthCheck.checkDeploymentHealth, h]
  simp only [dif_neg hstop]

theorem checkDeploymentHealth_attempts_pos (url : String) (config : DeploymentHealth)
    (oracle : Nat → AttemptOutcome) (ts : Nat → String) (r : Nat) :
    1 ≤ (HealthCheck.checkDeploymentHealth url config oracle ts r).attemptsMade := by
  rw [HealthCheck.checkDeploymentHealth]
  cases h : oracle r with
  | response s t => simp
  | throwErr e =>
    simp only
    split
    · simp
    · simp

/-! ### Claim theorems -/

/-- C3: for every probe that receives an HTTP response (any status code,
including 4xx/5xx), the result's `healthy` is `true` iff the response status
equals `config.expectedStatus`; the response status is recorded as-is, and no
retry happens (a single attempt, no delay). -/
theorem response_healthy_iff_expected (url : String) (config : DeploymentHealth)
    (oracle : Nat → AttemptOutcome) (ts : Nat → String) (r : Nat)
    (status : Int) (elapsedMs : Nat) (h : oracle r = .response status elapsedMs) :
    ((HealthCheck.checkDeploymentHealth url config oracle ts r).result.healthy = true ↔
        status = config.expectedStatus) ∧
      (HealthCheck.checkDeploymentHealth url config oracle ts r).result.status = status ∧
      (HealthCheck.checkDeploymentHealth url config oracle ts r).attemptsMade = 1 ∧
      (HealthCheck.checkDeploymentHealth url config oracle ts r).delays = [] := by
  rw [checkDeploymentHealth_response url config oracle ts r status elapsedMs h]
  refine ⟨?_, rfl, rfl, rfl⟩
  simp [beq_iff_eq]

/-- C3 witness: a probe answered with HTTP 500 against `expectedStatus = 200`
is recorded unhealthy with status 500 after a single attempt. -/
theorem response_healthy_iff_expected_witness :
    ((HealthCheck.checkDeploymentHealth "https://app.example.com"
          { expectedStatus := 200, timeoutMs := some 5000, checkIntervalMs := none }
          (fun _ => .response 500 42) (fun _ => "2026-01-01T00:00:00.000Z")
          0).result.healthy = true ↔ (500 : Int) = 200) ∧
      (HealthCheck.checkDeploymentHealth "https://app.example.com"
          { expectedStatus := 200, timeoutMs := some 5000, checkIntervalMs := none }
          (fun _ => .response 500 42) (fun _ => "2026-01-01T00:00:00.000Z")
          0).result.status = 500 ∧
      (HealthCheck.checkDeploymentHealth "https://app.example.com"
          { expectedStatus := 200, timeoutMs := some 5000, checkIntervalMs := none }
          (fun _ => .response 500 42) (fun _ => "2026-01-01T00:00:00.000Z")
          0).attemptsMade = 1 ∧
      (HealthCheck.checkDeploymentHealth "https://app.example.com"
          { expectedStatus := 200, timeoutMs := some 5000, checkIntervalMs := none }
          (fun _ => .response 500 42) (fun _ => "2026-01-01T00:00:00.000Z")
          0).delays = [] :=
  response_healthy_iff_expected "https://app.example.com"
    { expectedStatus := 200, timeoutMs := some 5000, checkIntervalMs := none }
    (fun _ => .response 500 42) (fun _ => "2026-01-01T00:00:00.000Z") 0 500 42 rfl

/-- C7: the Prober never throws: written in the exception monad with the
network call as the only throw site, `checkDeploymentHealth` always resolves
with a `HealthCheckResult` for every url, config, behaviour of the network,
and starting retry count. -/
theorem probe_never_throws (url : String) (config : DeploymentHealth)
    (oracle : Nat → AttemptOutcome) (ts : Nat → String) (retryCount : Nat) :
    ∃ tr : HealthCheck.ProbeTrace,
      HealthCheck.checkDeploymentHealthE url config oracle ts retryCount = .ok tr :=
  ⟨HealthCheck.checkDeploymentHealth url config oracle ts retryCount,
    HealthCheck.checkDeploymentHealthE_eq_ok url config oracle ts retryCount⟩

/-- C10: a retry happens only for a caught value that is a non-null object
with a `message` property while the retry count is below the bound; any other
thrown value immediately yields the synthetic 503 result, with no delay, and
with `error` computed as: an `Error`'s own message, a thrown string itself, a
plain object's `message`, and otherwise the fallback `"Unknown error"`. -/
theorem non_message_throw_skips_retry (url : String) (config : DeploymentHealth)
    (oracle : Nat → AttemptOutcome) (ts : Nat → String) (r : Nat) (e : Thrown)
    (h : oracle r = .throwErr e) :
    (¬ (e.isObjWithMessage = true ∧ r < HealthCheck.MAX_RETRIES) →
        HealthCheck.checkDeploymentHealth url config oracle ts r =
          { result :=
              { timestamp := ts r
                url := url
                status := 503
                healthy := false
                responseTime := none
                error := some e.jsMessage }
            attemptsMade := 1
            delays := [] }) ∧
      (e.isObjWithMessage = true → r < HealthCheck.MAX_RETRIES →
        (HealthCheck.checkDeploymentHealth url config oracle ts r).attemptsMade =
          (HealthCheck.checkDeploymentHealth url config oracle ts (r + 1)).attemptsMade + 1) ∧
      (∀ (m : String) (rp : Option RespInfo) (c : Option String),
          Thrown.jsMessage (.errObj m rp c) = m) ∧
      (∀ s : String, Thrown.jsMessage (.str s) = s) ∧
      (∀ (m : String) (rp : Option RespInfo) (c : Option String),
          Thrown.jsMessage (.plainObj (some m) rp c) = m) ∧
      (∀ (rp : Option RespInfo) (c : Option String),
          Thrown.jsMessage (.plainObj none rp c) = "Unknown error") ∧
      Thrown.jsMessage .nullOrUndef = "Unknown error" := by
  refine ⟨?_, ?_, fun _ _ _ => rfl, fun _ => rfl, fun _ _ _ => rfl, fun _ _ => rfl, rfl⟩
  · intro hstop
    exact checkDeploymentHealth_throw_stop url config oracle ts r e h hstop
  · intro hm hr
    rw [checkDeploymentHealth_throw_retry url config oracle ts r e h hm hr]

/-- C10 witness: a thrown string at retry count 0 is never retried and
becomes the synthetic 503 result whose `error` is the string itself. -/
theorem non_message_throw_skips_retry_witness :
    HealthCheck.checkDeploymentHealth "https://app.example.com"
        { expectedStatus := 200, timeoutMs := none, checkIntervalMs := none }
        (fun _ => .throwErr (.str "boom")) (fun _ => "2026-01-01T00:00:00.000Z") 0 =
      { result :=
          { timestamp := "2026-01-01T00:00:00.000Z"
            url := "https://app.example.com"
            status := 503
            healthy := false
            responseTime := none
            error := some (Thrown.jsMessage (.str "boom")) }
        attemptsMade := 1
        delays := [] } :=
  (non_message_throw_skips_retry "https://app.example.com"
      { expectedStatus := 200, timeoutMs := none, checkIntervalMs := none }
      (fun _ => .throwErr (.str "boom")) (fun _ => "2026-01-01T00:00:00.000Z") 0
      (.str "boom") rfl).1 (by intro hc; exact absurd hc.1 (by decide))

/-- When every attempt throws a message-bearing object, the recursion runs the
initial attempt plus `MAX_RETRIES` retries: four attempts, three delays, and
the synthetic result built from the last thrown value. -/
theorem checkDeploymentHealth_allFail (url : String) (config : DeploymentHealth)
    (oracle : Nat → AttemptOutcome) (ts : Nat → String) (errs : Nat → Thrown)
    (h1 : ∀ i, oracle i = .throwErr (errs i))
    (h2 : ∀ i, (errs i).isObjWithMessage = true) :
    HealthCheck.checkDeploymentHealth url config oracle ts 0 =
      { result :=
          { timestamp := ts 3
            url := url
            status := 503
            healthy := false
            responseTime := none
            error := some (errs 3).jsMessage }
        attemptsMade := 4
        delays := [1000, 1000, 1000] } := by
  rw [checkDeploymentHealth_throw_retry url config oracle ts 0 (errs 0) (h1 0) (h2 0)
      (by decide),
    checkDeploymentHealth_throw_retry url config oracle ts 1 (errs 1) (h1 1) (h2 1)
      (by decide),
    checkDeploymentHealth_throw_retry url config oracle ts 2 (errs 2) (h1 2) (h2 2)
      (by decide),
    checkDeploymentHealth_throw_stop url config oracle ts 3 (errs 3) (h1 3)
      (by intro hc; exact absurd hc.2 (by decide))]
  rfl

/-- An oracle for which every attempt fails at transport level with an
`Error` carrying a message (connection refused). -/
def connRefusedOracle : Nat → AttemptOutcome :=
  fun _ => .throwErr (.errObj "connect ECONNREFUSED 127.0.0.1:443" none (some "ECONNREFUSED"))

/-- C1 counterexample: when every attempt throws, `checkDeploymentHealth`
makes 4 total attempts (the initial one plus `MAX_RETRIES = 3` retries), not
3 as claimed. -/
theorem probe_three_attempts_refuted :
    (HealthCheck.checkDeploymentHealth "https://app.example.com"
        { expectedStatus := 200, timeoutMs := some 5000, checkIntervalMs := none }
        connRefusedOracle (fun _ => "2026-01-01T00:00:00.000Z") 0).attemptsMade = 4 ∧
      (HealthCheck.checkDeploymentHealth "https://app.example.com"
        { expectedStatus := 200, timeoutMs := some 5000, checkIntervalMs := none }
        connRefusedOracle (fun _ => "2026-01-01T00:00:00.000Z") 0).attemptsMade ≠ 3 := by
  rw [checkDeploymentHealth_allFail "https://app.example.com"
      { expectedStatus := 200, timeoutMs := some 5000, checkIntervalMs := none }
      connRefusedOracle (fun _ => "2026-01-01T00:00:00.000Z")
      (fun _ => .errObj "connect ECONNREFUSED 127.0.0.1:443" none (some "ECONNREFUSED"))
      (fun _ => rfl) (fun _ => rfl)]
  exact ⟨rfl, by decide⟩

/-- C1 (amended): when every attempt fails at transport level with a
message-bearing thrown value, the Prober makes exactly 4 total attempts (the
initial call plus 3 retries), sleeping a fixed 1000 ms before each retry, and
returns a result with status 503, `healthy = false`, and `error` set to the
underlying failure message (of the last attempt). -/
theorem probe_exhausts_four_attempts (url : String) (config : DeploymentHealth)
    (oracle : Nat → AttemptOutcome) (ts : Nat → String) (errs : Nat → Thrown)
    (h1 : ∀ i, oracle i = .throwErr (errs i))
    (h2 : ∀ i, (errs i).isObjWithMessage = true) :
    (HealthCheck.checkDeploymentHealth url config oracle ts 0).attemptsMade = 4 ∧
      (HealthCheck.checkDeploymentHealth url config oracle ts 0).delays =
        [1000, 1000, 1000] ∧
      (HealthCheck.checkDeploymentHealth url config oracle ts 0).result.status = 503 ∧
      (HealthCheck.checkDeploymentHealth url config oracle ts 0).result.healthy = false ∧
      (HealthCheck.checkDeploymentHealth url config oracle ts 0).result.error =
        some (errs 3).jsMessage := by
  rw [checkDeploymentHealth_allFail url config oracle ts errs h1 h2]
  exact ⟨rfl, rfl, rfl, rfl, rfl⟩

/-- C1 witness: the amended claim evaluated on the connection-refused
oracle. -/
theorem probe_exhausts_four_attempts_witness :
    (HealthCheck.checkDeploymentHealth "https://app.example.com"
        { expectedStatus := 200, timeoutMs := some 5000, checkIntervalMs := none }
        connRefusedOracle (fun _ => "2026-01-01T00:00:00.000Z")
        0).attemptsMade = 4 ∧
      (HealthCheck.checkDeploymentHealth "https://app.example.com"
        { expectedStatus := 200, timeoutMs := some 5000, checkIntervalMs := none }
        connRefusedOracle (fun _ => "2026-01-01T00:00:00.000Z") 0).delays =
          [1000, 1000, 1000] ∧
      (HealthCheck.checkDeploymentHealth "https://app.example.com"
        { expectedStatus := 200, timeoutMs := some 5000, checkIntervalMs := none }
        connRefusedOracle (fun _ => "2026-01-01T00:00:00.000Z") 0).result.status = 503 ∧
      (HealthCheck.checkDeploymentHealth "https://app.example.com"
        { expectedStatus := 200, timeoutMs := some 5000, checkIntervalMs := none }
        connRefusedOracle (fun _ => "2026-01-01T00:00:00.000Z") 0).result.healthy = false ∧
      (HealthCheck.checkDeploymentHealth "https://app.example.com"
        { expectedStatus := 200, timeoutMs := some 5000, checkIntervalMs := none }
        connRefusedOracle (fun _ => "2026-01-01T00:00:00.000Z") 0).result.error =
        some (Thrown.jsMessage
          (.errObj "connect ECONNREFUSED 127.0.0.1:443" none (some "ECONNREFUSED"))) :=
  probe_exhausts_four_attempts "https://app.example.com"
    { expectedStatus := 200, timeoutMs := some 5000, checkIntervalMs := none }
    connRefusedOracle (fun _ => "2026-01-01T00:00:00.000Z")
    (fun _ => .errObj "connect ECONNREFUSED 127.0.0.1:443" none (some "ECONNREFUSED"))
    (fun _ => rfl) (fun _ => rfl)

/-! ### Streak counters -/

theorem foldl_updateStreaks_replicate_true (n : Nat) :
    ∀ st : HealthCheck.MonitorState,
      (List.replicate n true).foldl HealthCheck.updateStreaks st =
        if n = 0 then st
        else { healthyStreak := st.healthyStreak + n, unhealthyStreak := 0 } := by
  induction n with
  | zero => intro st; simp
  | succ k ih =>
    intro st
    rw [List.replicate_succ, List.foldl_cons, ih]
    by_cases hk : k = 0
    · subst hk
      simp [HealthCheck.updateStreaks]
    · simp only [hk, if_false, Nat.succ_ne_zero, HealthCheck.updateStreaks, if_true]
      congr 1
      push_cast
      ring

/-- C4: starting from the fresh monitor state, after `n` consecutive healthy
probe results the state has `healthyStreak = n` and `unhealthyStreak = 0`,
and the first unhealthy result after such a run yields
`healthyStreak = 0`, `unhealthyStreak = 1`. -/
theorem healthy_run_streaks (n : Nat) :
    (HealthCheck.processResults (List.replicate n true)).healthyStreak = n ∧
      (HealthCheck.processResults (List.replicate n true)).unhealthyStreak = 0 ∧
      HealthCheck.processResults (List.replicate n true ++ [false]) =
        { healthyStreak := 0, unhealthyStreak := 1 } := by
  have hrun := foldl_updateStreaks_replicate_true n HealthCheck.initialMonitorState
  refine ⟨?_, ?_, ?_⟩
  · rw [HealthCheck.processResults, hrun]
    by_cases hn : n = 0
    · subst hn; rfl
    · simp [hn, HealthCheck.initialMonitorState]
  · rw [HealthCheck.processResults, hrun]
    by_cases hn : n = 0
    · subst hn; rfl
    · simp [hn]
  · rw [HealthCheck.processResults, List.foldl_append, hrun]
    by_cases hn : n = 0
    · subst hn; rfl
    · simp [hn, HealthCheck.updateStreaks]

/-- C5: in every monitor state reachable from the start by any sequence of
probe results, at most one of the two streak counters is nonzero and both are
nonnegative; moreover each update resets the counterpart of the counter it
increments. -/
theorem streak_invariant (results : List Bool) :
    ((HealthCheck.processResults results).healthyStreak = 0 ∨
        (HealthCheck.processResults results).unhealthyStreak = 0) ∧
      0 ≤ (HealthCheck.processResults results).healthyStreak ∧
      0 ≤ (HealthCheck.processResults results).unhealthyStreak ∧
      (∀ st : HealthCheck.MonitorState,
        (HealthCheck.updateStreaks st true).unhealthyStreak = 0 ∧
          (HealthCheck.updateStreaks st true).healthyStreak = st.healthyStreak + 1 ∧
          (HealthCheck.updateStreaks st false).healthyStreak = 0 ∧
          (HealthCheck.updateStreaks st false).unhealthyStreak = st.unhealthyStreak + 1) := by
  have main : ∀ (l : List Bool) (st : HealthCheck.MonitorState),
      (st.healthyStreak = 0 ∨ st.unhealthyStreak = 0) →
      0 ≤ st.healthyStreak → 0 ≤ st.unhealthyStreak →
      ((l.foldl HealthCheck.updateStreaks st).healthyStreak = 0 ∨
          (l.foldl HealthCheck.updateStreaks st).unhealthyStreak = 0) ∧
        0 ≤ (l.foldl HealthCheck.updateStreaks st).healthyStreak ∧
        0 ≤ (l.foldl HealthCheck.updateStreaks st).unhealthyStreak := by
    intro l
    induction l with
    | nil => intro st h1 h2 h3; exact ⟨h1, h2, h3⟩
    | cons b rest ih =>
      intro st h1 h2 h3
      rw [List.foldl_cons]
      cases b
      · exact ih _ (Or.inl rfl) (by simp [HealthCheck.updateStreaks])
          (by simp [HealthCheck.updateStreaks]; omega)
      · exact ih _ (Or.inr rfl) (by simp [HealthCheck.updateStreaks]; omega)
          (by simp [HealthCheck.updateStreaks])
  have h := main results HealthCheck.initialMonitorState (Or.inl rfl)
    (by simp [HealthCheck.initialMonitorState]) (by simp [HealthCheck.initialMonitorState])
  exact ⟨h.1, h.2.1, h.2.2, fun st => ⟨rfl, rfl, rfl, rfl⟩⟩

/-- C6: on a healthy probe, a console "passed" notice appears exactly when
the updated `healthyStreak` is 1 or a positive multiple of 5, and no failure
output appears; on an unhealthy probe, a failure notice always appears, and
the elevated alert appears exactly when the updated `unhealthyStreak` is at
least 3 (on every such probe). -/
theorem console_output_rules (st : HealthCheck.MonitorState) (health : HealthCheckResult)
    (hh : 0 ≤ st.healthyStreak) :
    (health.healthy = true →
        (((HealthCheck.logHealthCheck st health).2.any HealthCheck.ConsoleLine.isPassedNotice = true ↔
            (HealthCheck.updateStreaks st health.healthy).healthyStreak = 1 ∨
              (0 < (HealthCheck.updateStreaks st health.healthy).healthyStreak ∧
                (HealthCheck.updateStreaks st health.healthy).healthyStreak % 5 = 0)) ∧
          (HealthCheck.logHealthCheck st health).2.any HealthCheck.ConsoleLine.isFailedNotice = false ∧
          (HealthCheck.logHealthCheck st health).2.any HealthCheck.ConsoleLine.isAlertNotice = false)) ∧
      (health.healthy = false →
        ((HealthCheck.logHealthCheck st health).2.any HealthCheck.ConsoleLine.isFailedNotice = true ∧
          ((HealthCheck.logHealthCheck st health).2.any HealthCheck.ConsoleLine.isAlertNotice = true ↔
            3 ≤ (HealthCheck.updateStreaks st health.healthy).unhealthyStreak))) := by
  constructor
  · intro hcase
    rw [HealthCheck.logHealthCheck, HealthCheck.updateStreaks]
    simp only [hcase, if_true]
    by_cases h1 : st.healthyStreak + 1 = 1
    · simp [h1, HealthCheck.ConsoleLine.isPassedNotice, HealthCheck.ConsoleLine.isFailedNotice,
        HealthCheck.ConsoleLine.isAlertNotice]
    · by_cases h5 : (st.healthyStreak + 1) % 5 = 0
      · simp [h1, h5, HealthCheck.ConsoleLine.isPassedNotice, HealthCheck.ConsoleLine.isFailedNotice,
          HealthCheck.ConsoleLine.isAlertNotice]
        omega
      · simp [h1, h5, HealthCheck.ConsoleLine.isPassedNotice, HealthCheck.ConsoleLine.isFailedNotice,
          HealthCheck.ConsoleLine.isAlertNotice]
  · intro hcase
    rw [HealthCheck.logHealthCheck, HealthCheck.updateStreaks]
    simp only [hcase, if_false, Bool.false_eq_true]
    by_cases h3 : 3 ≤ st.unhealthyStreak + 1
    · simp [h3, HealthCheck.ConsoleLine.isFailedNotice, HealthCheck.ConsoleLine.isAlertNotice]
    · simp [h3, HealthCheck.ConsoleLine.isFailedNotice, HealthCheck.ConsoleLine.isAlertNotice]

/-- C6 witness: from a fresh state, a healthy probe prints the passed notice
(streak 1) and no failure output; an unhealthy probe from the fresh state
prints the failure notice and no alert (streak 1 < 3). -/
theorem console_output_rules_witness :
    ((HealthCheck.logHealthCheck HealthCheck.initialMonitorState
          { timestamp := "T", url := "u", status := 200, healthy := true }).2.any
        HealthCheck.ConsoleLine.isPassedNotice = true ↔
      (HealthCheck.updateStreaks HealthCheck.initialMonitorState true).healthyStreak = 1 ∨
        (0 < (HealthCheck.updateStreaks HealthCheck.initialMonitorState true).healthyStreak ∧
          (HealthCheck.updateStreaks HealthCheck.initialMonitorState true).healthyStreak % 5
            = 0)) ∧
      (HealthCheck.logHealthCheck HealthCheck.initialMonitorState
          { timestamp := "T", url := "u", status := 200, healthy := true }).2.any
        HealthCheck.ConsoleLine.isFailedNotice = false ∧
      (HealthCheck.logHealthCheck HealthCheck.initialMonitorState
          { timestamp := "T", url := "u", status := 200, healthy := true }).2.any
        HealthCheck.ConsoleLine.isAlertNotice = false :=
  (console_output_rules HealthCheck.initialMonitorState
      { timestamp := "T", url := "u", status := 200, healthy := true }
      (by simp [HealthCheck.initialMonitorState])).1 rfl

/-- C8 counterexample: on a probe answered in 120 ms, the result's optional
field is `responseTime` and holds the STRING `"120ms"`, not an integer count
of milliseconds (`"120"` rendered from 120). -/
theorem responseTimeMs_integer_refuted :
    (HealthCheck.checkDeploymentHealth "https://app.example.com"
        { expectedStatus := 200, timeoutMs := none, checkIntervalMs := none }
        (fun _ => .response 200 120) (fun _ => "T") 0).result.responseTime =
      some "120ms" ∧
      (HealthCheck.checkDeploymentHealth "https://app.example.com"
        { expectedStatus := 200, timeoutMs := none, checkIntervalMs := none }
        (fun _ => .response 200 120) (fun _ => "T") 0).result.responseTime ≠
      some (toString (120 : Nat)) := by
  rw [checkDeploymentHealth_response "https://app.example.com"
    { expectedStatus := 200, timeoutMs := none, checkIntervalMs := none }
    (fun _ => .response 200 120) (fun _ => "T") 0 200 120 rfl]
  exact ⟨by decide, by decide⟩

/-- C8 (amended): for every probe that receives an HTTP response, the result
records the elapsed wall-clock time in the optional string field
`responseTime`, formatted as the decimal milliseconds followed by `"ms"`; on
a terminal transport failure the field is absent (and `error` is set
instead). -/
theorem responseTime_string_field (url : String) (config : DeploymentHealth)
    (oracle : Nat → AttemptOutcome) (ts : Nat → String) (r : Nat) :
    (∀ (status : Int) (elapsedMs : Nat), oracle r = .response status elapsedMs →
        (HealthCheck.checkDeploymentHealth url config oracle ts r).result.responseTime =
          some (toString elapsedMs ++ "ms")) ∧
      (∀ e : Thrown, oracle r = .throwErr e →
        ¬ (e.isObjWithMessage = true ∧ r < HealthCheck.MAX_RETRIES) →
        (HealthCheck.checkDeploymentHealth url config oracle ts r).result.responseTime =
            none ∧
          (HealthCheck.checkDeploymentHealth url config oracle ts r).result.error =
            some e.jsMessage) := by
  constructor
  · intro status elapsedMs h
    rw [checkDeploymentHealth_response url config oracle ts r status elapsedMs h]
  · intro e h hstop
    rw [checkDeploymentHealth_throw_stop url config oracle ts r e h hstop]
    exact ⟨rfl, rfl⟩

/-- C8 witness: a 120 ms response yields `responseTime = "120ms"`; a thrown
`null` yields no `responseTime` and the fallback error message. -/
theorem responseTime_string_field_witness :
    (HealthCheck.checkDeploymentHealth "https://app.example.com"
        { expectedStatus := 200, timeoutMs := none, checkIntervalMs := none }
        (fun _ => .response 200 120) (fun _ => "T") 0).result.responseTime =
      some "120ms" ∧
      (HealthCheck.checkDeploymentHealth "https://app.example.com"
        { expectedStatus := 200, timeoutMs := none, checkIntervalMs := none }
        (fun _ => .throwErr .nullOrUndef) (fun _ => "T") 0).result.responseTime = none :=
  ⟨((responseTime_string_field "https://app.example.com"
      { expectedStatus := 200, timeoutMs := none, checkIntervalMs := none }
      (fun _ => .response 200 120) (fun _ => "T") 0).1 200 120 rfl).trans (by decide),
    ((responseTime_string_field "https://app.example.com"
      { expectedStatus := 200, timeoutMs := none, checkIntervalMs := none }
      (fun _ => .throwErr .nullOrUndef) (fun _ => "T") 0).2 .nullOrUndef rfl
      (by intro hc; exact absurd hc.1 (by decide))).1⟩

/-! ### Cancellation -/

/-- The result of a probe that was in flight when the session got
cancelled. -/
def inFlightHealth : HealthCheckResult :=
  { timestamp := "2026-01-01T00:00:00.000Z"
    url := "https://app.example.com"
    status := 200
    healthy := true
    responseTime := some "50ms" }

/-- C2 counterexample: cancelling right after `setupHealthMonitoring` returns
(the initial probe still in flight) does not stop that probe's result from
being logged: when it completes, a line IS appended to the session's log
file. -/
theorem cancel_discards_inflight_refuted :
    (HealthCheck.stepMonitor HealthCheck.initialSession .cancel).cancelled = true ∧
      (HealthCheck.stepMonitor HealthCheck.initialSession .cancel).fileLog = [] ∧
      (HealthCheck.stepMonitor (HealthCheck.stepMonitor HealthCheck.initialSession .cancel)
          (.probeComplete inFlightHealth)).fileLog ≠ [] := by
  refine ⟨rfl, rfl, ?_⟩
  simp [HealthCheck.stepMonitor, HealthCheck.initialSession]

/-- C2 (amended): once cancellation has run, no timer tick does anything any
more (so no new probe starts) and the session stays cancelled; but a probe
that was already in flight still has its result logged when it completes —
its line is appended to the session's log file rather than discarded. -/
theorem cancel_stops_ticks_but_logs_inflight (s : HealthCheck.SessionState)
    (h : s.cancelled = true) :
    HealthCheck.stepMonitor s .timerTick = s ∧
      (∀ health : HealthCheckResult, 0 < s.inFlight →
        (HealthCheck.stepMonitor s (.probeComplete health)).fileLog =
          s.fileLog ++ [HealthCheck.logFileLine health]) ∧
      (∀ ev : HealthCheck.MonitorEvent, (HealthCheck.stepMonitor s ev).cancelled = true) := by
  refine ⟨?_, ?_, ?_⟩
  · simp [HealthCheck.stepMonitor, h]
  · intro health hif
    rw [HealthCheck.stepMonitor]
    rw [if_neg (by omega)]
  · intro ev
    cases ev
    · simp [HealthCheck.stepMonitor, h]
    · rw [HealthCheck.stepMonitor]
      split
      · exact h
      · exact h
    · rfl

/-- C2 witness: the amended claim evaluated on the cancelled initial
session. -/
theorem cancel_stops_ticks_but_logs_inflight_witness :
    HealthCheck.stepMonitor (HealthCheck.stepMonitor HealthCheck.initialSession .cancel)
        .timerTick = HealthCheck.stepMonitor HealthCheck.initialSession .cancel ∧
      (HealthCheck.stepMonitor (HealthCheck.stepMonitor HealthCheck.initialSession .cancel)
          (.probeComplete inFlightHealth)).fileLog =
        (HealthCheck.stepMonitor HealthCheck.initialSession .cancel).fileLog ++
          [HealthCheck.logFileLine inFlightHealth] :=
  ⟨(cancel_stops_ticks_but_logs_inflight
      (HealthCheck.stepMonitor HealthCheck.initialSession .cancel) rfl).1,
    (cancel_stops_ticks_but_logs_inflight
      (HealthCheck.stepMonitor HealthCheck.initialSession .cancel) rfl).2.1
      inFlightHealth (by decide)⟩

/-! ### The outer API-call path -/

theorem makeVercelApiCall_throw_retry (token : Option String)
    (oracle : Nat → Vercel.ApiOutcome) (r : Nat) (e : Thrown)
    (htok : jsTruthy token = true) (h : oracle r = .throwErr e)
    (hr : Vercel.shouldRetryApi e r = true) :
    Vercel.makeVercelApiCall token oracle r =
      { result := (Vercel.makeVercelApiCall token oracle (r + 1)).result
        attemptsMade := (Vercel.makeVercelApiCall token oracle (r + 1)).attemptsMade + 1
        delays := Vercel.RETRY_DELAY_MS ::
          (Vercel.makeVercelApiCall token oracle (r + 1)).delays } := by
  rw [Vercel.makeVercelApiCall, if_neg (by simp [htok]), h]
  simp only [dif_pos hr]

theorem makeVercelApiCall_throw_stop (token : Option String)
    (oracle : Nat → Vercel.ApiOutcome) (r : Nat) (e : Thrown)
    (htok : jsTruthy token = true) (h : oracle r = .throwErr e)
    (hr : Vercel.shouldRetryApi e r = false) :
    Vercel.makeVercelApiCall token oracle r =
      { result := .error (Vercel.vercelErrorMessage e)
        attemptsMade := 1
        delays := [] } := by
  rw [Vercel.makeVercelApiCall, if_neg (by simp [htok]), h]
  simp only [dif_neg (show ¬ Vercel.shouldRetryApi e r = true by rw [hr]; simp)]

theorem makeVercelApiCall_attempts_pos (token : Option String)
    (oracle : Nat → Vercel.ApiOutcome) (r : Nat) (htok : jsTruthy token = true) :
    1 ≤ (Vercel.makeVercelApiCall token oracle r).attemptsMade := by
  rw [Vercel.makeVercelApiCall, if_neg (by simp [htok])]
  cases h : oracle r with
  | success d => simp
  | throwErr e =>
    simp only
    split
    · simp
    · simp

theorem shouldRetryApi_iff (e : Thrown) (r : Nat) :
    Vercel.shouldRetryApi e r = true ↔
      e.hasResponse = true ∧ r < Vercel.MAX_RETRIES ∧
        ((∃ s, e.responseStatus = some s ∧ 500 ≤ s) ∨ e.errCode = some "ECONNRESET") := by
  constructor
  · intro hyp
    simp only [Vercel.shouldRetryApi, Bool.and_eq_true, Bool.or_eq_true,
      decide_eq_true_eq] at hyp
    obtain ⟨⟨hres, hlt⟩, hdisj⟩ := hyp
    refine ⟨hres, hlt, ?_⟩
    rcases hdisj with hst | hcode
    · cases hrs : e.responseStatus with
      | none => rw [hrs] at hst; simp at hst
      | some s =>
        rw [hrs] at hst
        exact Or.inl ⟨s, rfl, by simpa using hst⟩
    · exact Or.inr (by simpa using hcode)
  · rintro ⟨hres, hlt, hdisj⟩
    simp only [Vercel.shouldRetryApi, Bool.and_eq_true, Bool.or_eq_true,
      decide_eq_true_eq]
    refine ⟨⟨hres, hlt⟩, ?_⟩
    rcases hdisj with ⟨s, hs, h500⟩ | hcode
    · left
      rw [hs]
      simpa using h500
    · right
      simpa using hcode

/-- A thrown plain object carrying the connection-reset code but no
`response` property. -/
def econnresetNoResp : Thrown := .plainObj none none (some "ECONNRESET")

/-- C9 counterexample: a thrown object whose `code` is `'ECONNRESET'` but
that has no `response` property is NOT retried by `makeVercelApiCall` even at
retry count 0: the call makes a single attempt and rethrows (here with the
fallback message), although the claim's retry predicate ("carries HTTP
status ≥ 500 or the code ECONNRESET") says it would be retried.  Also, the
health-probe path does not retry a thrown string, although the claim says it
retries on any thrown error. -/
theorem retry_predicate_refuted :
    (Vercel.makeVercelApiCall (some "tok")
        (fun _ => .throwErr econnresetNoResp) 0).attemptsMade = 1 ∧
      (Vercel.makeVercelApiCall (some "tok")
        (fun _ => .throwErr econnresetNoResp) 0).result = .error "Unknown error" ∧
      econnresetNoResp.errCode = some "ECONNRESET" ∧
      (0 : Nat) < Vercel.MAX_RETRIES ∧
      (HealthCheck.checkDeploymentHealth "https://app.example.com"
        { expectedStatus := 200, timeoutMs := none, checkIntervalMs := none }
        (fun _ => .throwErr (.str "socket hang up")) (fun _ => "T") 0).attemptsMade = 1 := by
  rw [makeVercelApiCall_throw_stop (some "tok") (fun _ => .throwErr econnresetNoResp) 0
      econnresetNoResp (by decide) rfl (by decide),
    checkDeploymentHealth_throw_stop "https://app.example.com"
      { expectedStatus := 200, timeoutMs := none, checkIntervalMs := none }
      (fun _ => .throwErr (.str "socket hang up")) (fun _ => "T") 0 (.str "socket hang up")
      rfl (by intro hc; exact absurd hc.1 (by decide))]
  exact ⟨rfl, rfl, rfl, by decide, rfl⟩

/-- C9 (amended): with a set token, `makeVercelApiCall` retries a failed
request (with a 2000 ms delay) exactly when the thrown value is a non-null
object that HAS a `response` property, the retry count is below the bound,
and the response status is ≥ 500 or the error code is `'ECONNRESET'`; every
other thrown value is rethrown immediately (wrapped in an `Error`).  The
health-probe path instead retries exactly on thrown non-null objects with a
`message` property (below its own bound) — not on arbitrary thrown values. -/
theorem retry_asymmetry (token : Option String) (oracle : Nat → Vercel.ApiOutcome)
    (r : Nat) (e : Thrown) (htok : jsTruthy token = true) (h : oracle r = .throwErr e) :
    ((Vercel.makeVercelApiCall token oracle r).attemptsMade > 1 ↔
        e.hasResponse = true ∧ r < Vercel.MAX_RETRIES ∧
          ((∃ s, e.responseStatus = some s ∧ 500 ≤ s) ∨ e.errCode = some "ECONNRESET")) ∧
      (Vercel.shouldRetryApi e r = false →
        (Vercel.makeVercelApiCall token oracle r).result =
            .error (Vercel.vercelErrorMessage e) ∧
          (Vercel.makeVercelApiCall token oracle r).delays = []) ∧
      (Vercel.shouldRetryApi e r = true →
        (Vercel.makeVercelApiCall token oracle r).delays.head? = some 2000) ∧
      (∀ (url : String) (config : DeploymentHealth) (oracle2 : Nat → AttemptOutcome)
          (ts : Nat → String) (r2 : Nat) (e2 : Thrown), oracle2 r2 = .throwErr e2 →
          ((HealthCheck.checkDeploymentHealth url config oracle2 ts r2).attemptsMade > 1 ↔
            e2.isObjWithMessage = true ∧ r2 < HealthCheck.MAX_RETRIES)) := by
  refine ⟨?_, ?_, ?_, ?_⟩
  · by_cases hr : Vercel.shouldRetryApi e r = true
    · rw [makeVercelApiCall_throw_retry token oracle r e htok h hr]
      have hpos := makeVercelApiCall_attempts_pos token oracle (r + 1) htok
      simp only []
      constructor
      · intro _
        exact (shouldRetryApi_iff e r).mp hr
      · intro _
        omega
    · have hr' : Vercel.shouldRetryApi e r = false := by simpa using hr
      rw [makeVercelApiCall_throw_stop token oracle r e htok h hr']
      simp only [gt_iff_lt, lt_self_iff_false, false_iff]
      intro hchar
      exact hr ((shouldRetryApi_iff e r).mpr hchar)
  · intro hr'
    rw [makeVercelApiCall_throw_stop token oracle r e htok h hr']
    exact ⟨rfl, rfl⟩
  · intro hr
    rw [makeVercelApiCall_throw_retry token oracle r e htok h hr]
    rfl
  · intro url config oracle2 ts r2 e2 h2
    by_cases hc : e2.isObjWithMessage = true ∧ r2 < HealthCheck.MAX_RETRIES
    · rw [checkDeploymentHealth_throw_retry url config oracle2 ts r2 e2 h2 hc.1 hc.2]
      have hpos := checkDeploymentHealth_attempts_pos url config oracle2 ts (r2 + 1)
      constructor
      · intro _
        exact hc
      · intro _
        simp only []
        omega
    · rw [checkDeploymentHealth_throw_stop url config oracle2 ts r2 e2 h2 hc]
      simp only [gt_iff_lt, lt_self_iff_false, false_iff]
      exact hc

/-- C9 witness: the retry predicates evaluated on a thrown HTTP-500 error
(retried by the API path) — the first conjunct instantiated — and on a thrown
string in the probe path via the last conjunct. -/
theorem retry_asymmetry_witness :
    ((Vercel.makeVercelApiCall (some "tok")
        (fun _ => .throwErr (.errObj "Request failed with status code 500"
          (some { status := some 500, statusText := some "Internal Server Error"
                  dataErrorMessage := none }) none)) 0).attemptsMade > 1 ↔
      Thrown.hasResponse (.errObj "Request failed with status code 500"
          (some { status := some 500, statusText := some "Internal Server Error"
                  dataErrorMessage := none }) none) = true ∧
        0 < Vercel.MAX_RETRIES ∧
        ((∃ s, Thrown.responseStatus (.errObj "Request failed with status code 500"
            (some { status := some 500, statusText := some "Internal Server Error"
                    dataErrorMessage := none }) none) = some s ∧ 500 ≤ s) ∨
          Thrown.errCode (.errObj "Request failed with status code 500"
            (some { status := some 500, statusText := some "Internal Server Error"
                    dataErrorMessage := none }) none) = some "ECONNRESET")) :=
  (retry_asymmetry (some "tok")
    (fun _ => .throwErr (.errObj "Request failed with status code 500"
      (some { status := some 500, statusText := some "Internal Server Error"
              dataErrorMessage := none }) none)) 0
    (.errObj "Request failed with status code 500"
      (some { status := some 500, statusText := some "Internal Server Error"
              dataErrorMessage := none }) none)
    (by decide) rfl).1

end AutoDeploy
